import Mathlib

/-!
Verification of the `kg_traefik2` Kubernetes manifest builder
(`kg_traefik2/builder.py`, `kg_traefik2/option.py`).

The builder assembles Kubernetes objects (ServiceAccount, ClusterRole,
ClusterRoleBinding, ConfigMap, Deployment, Service, plus a static list of
CustomResourceDefinition documents) from a typed option tree.  Here the
relevant data model and operations are embedded as executable Lean
functions, faithful to the Python source; `InvalidParamError` is modelled
by the `Except String` error channel.
-/

/-!
`DValue` is a YAML-like document tree, the payload of emitted Kubernetes
objects.  `cond enabled v` models kubragen's `ValueData` conditional
wrapper (`enabled=...` or `disabled_if_none=True` with the flag already
resolved): a disabled node is erased entirely from its parent during
pruning.  `DList` and `DMap` are the sequence and mapping spines,
mutually inductive with `DValue` so that all functions below are
structurally recursive.
-/
mutual

inductive DValue where
  | str (s : String)
  | int (n : Int)
  | bool (b : Bool)
  | nullv
  | cond (enabled : Bool) (v : DValue)
  | seq (l : DList)
  | map (l : DMap)

inductive DList where
  | nil
  | cons (v : DValue) (l : DList)

inductive DMap where
  | nil
  | cons (k : String) (v : DValue) (m : DMap)

end

/-- Build a `DList` from a Lean list of values. -/
def DList.ofList : List DValue → DList
  | [] => .nil
  | v :: r => .cons v (DList.ofList r)

/-- Length of a `DList`. -/
def DList.length : DList → Nat
  | .nil => 0
  | .cons _ r => 1 + DList.length r

/-!
Erasure of disabled conditional values, the serialization-time pruning
pass: a `cond false` node disappears from its containing sequence or
mapping; a `cond true` node is replaced by its pruned payload.
-/
mutual

def DValue.prune : DValue → Option DValue
  | .str s => some (.str s)
  | .int n => some (.int n)
  | .bool b => some (.bool b)
  | .nullv => some .nullv
  | .cond enabled v => if enabled then DValue.prune v else none
  | .seq l => some (.seq (DList.prune l))
  | .map l => some (.map (DMap.prune l))

def DList.prune : DList → DList
  | .nil => .nil
  | .cons v r =>
    match DValue.prune v with
    | none => DList.prune r
    | some w => .cons w (DList.prune r)

def DMap.prune : DMap → DMap
  | .nil => .nil
  | .cons k v r =>
    match DValue.prune v with
    | none => DMap.prune r
    | some w => .cons k w (DMap.prune r)

end

/-- Look up a key in a mapping node (first occurrence wins). -/
def DMap.lookupKey : DMap → String → Option DValue
  | .nil, _ => none
  | .cons k v r, key => if k = key then some v else DMap.lookupKey r key

/-- Look up a key of a `DValue` that is a mapping. -/
def DValue.lookupKey : DValue → String → Option DValue
  | .map l, key => DMap.lookupKey l key
  | _, _ => none

/-- Element of a `DValue` that is a sequence, at an index. -/
def DValue.atIdx : DValue → Nat → Option DValue
  | .seq l, i =>
    let rec go : DList → Nat → Option DValue
      | .nil, _ => none
      | .cons v _, 0 => some v
      | .cons _ r, n + 1 => go r n
    go l i
  | _, _ => none

/-- A `None`-able string option value rendered into a document tree:
Python `None` serializes as `null`. -/
def optStr : Option String → DValue
  | some s => .str s
  | none => .nullv

/-- A `None`-able int option value rendered into a document tree. -/
def optInt : Option Int → DValue
  | some n => .int n
  | none => .nullv

/-- Port options for the Traefik 2 builder (`Traefik2OptionsPort`):
logical name, container port, IP protocol (default `TCP`), whether the
port also appears in the Service, and the optional service-facing port. -/
structure Traefik2OptionsPort where
  name : String
  port_container : Int
  protocol : String := "TCP"
  in_service : Bool := true
  port_service : Option Int := none

/-- The configuration payload of the `config.traefik_config` option:
either a literal string used verbatim, or a structured config-file
template whose `get_value` (an external collaborator) produces a nested
mapping; the mapping it would produce is carried directly. -/
inductive TraefikConfigValue where
  | rawStr (s : String)
  | template (v : DValue)

/-- Serialization-format tag for TOML, from the options base class. -/
def CONFIGFORMAT_TOML : String := "toml"

/-- Serialization-format tag for YAML, from the options base class. -/
def CONFIGFORMAT_YAML : String := "yaml"

/-- The options of the Traefik 2 builder (`Traefik2Options.define_options`),
flattened from the dotted option tree, with the schema's default values.
`ns` models the `namespace` option (a Lean keyword).  `serviceaccount_use`
has no default in the schema: `none` models the absent value, `some s` an
explicitly supplied string.  `config_format` comes from the options base
class and selects TOML or YAML serialization. -/
structure Traefik2Options where
  basename : String := "traefik2"
  ns : String := "default"
  traefik_args : List String := [
    "--entrypoints.web.Address=:80",
    "--entryPoints.metrics.address=:9090",
    "--metrics.prometheus=true",
    "--metrics.prometheus.entryPoint=metrics"]
  ports : List Traefik2OptionsPort := [
    { name := "web", port_container := 80, port_service := some 80 },
    { name := "metrics", port_container := 9090, in_service := false }]
  create_traefik_crd : Bool := true
  enable_prometheus : Bool := true
  prometheus_port : Int := 9090
  prometheus_annotation : Bool := false
  serviceaccount_create : Bool := true
  serviceaccount_use : Option String := none
  roles_create : Bool := true
  roles_bind : Bool := true
  config_format : String := CONFIGFORMAT_TOML
  traefik_config : Option TraefikConfigValue := none
  container_traefik2 : String := "traefik:v2.2"
  resources_deployment : Option DValue := none

/-- `basename(suffix)`: the common name prefix plus a suffix. -/
def basename (o : Traefik2Options) (suffix : String := "") : String :=
  o.basename ++ suffix

/-- The name registry populated by `object_names_init` during
construction: logical object names mapped to concrete names; `none`
means the object is not being created. -/
structure ObjectNames where
  config : String
  service : String
  service_account : Option String
  cluster_role : Option String
  cluster_role_binding : Option String
  deployment : String
  pod_label_app : String

/-- State of a constructed `Traefik2Builder`: the resolved options, the
name registry, and the memoized rendered configuration text. -/
structure Traefik2Builder where
  options : Traefik2Options
  names : ObjectNames
  configfile : Option String

/-- The builder's source identifier (`SOURCE_NAME`). -/
def SOURCE_NAME : String := "kg_traefik2"

/-- Resolution of `serviceaccount_name` in `Traefik2Builder.__init__`:
when `serviceaccount_create` is enabled the basename, otherwise the
`serviceaccount_use` option with an empty string collapsed to `None`. -/
def resolve_serviceaccount_name (o : Traefik2Options) : Option String :=
  if o.serviceaccount_create then some (basename o)
  else
    match o.serviceaccount_use with
    | none => none
    | some s => if s = "" then none else some s

/-- Resolution of `role_name` in `Traefik2Builder.__init__`. -/
def resolve_role_name (o : Traefik2Options) : Option String :=
  if o.roles_create then some (basename o) else none

/-- `Traefik2Builder.__init__`: resolves the naming policy, raising
`InvalidParamError` when role binding is requested without a service
account or without a role, then populates the name registry. -/
def Traefik2Builder.mk? (o : Traefik2Options) : Except String Traefik2Builder :=
  let serviceaccount_name := resolve_serviceaccount_name o
  let role_name := resolve_role_name o
  let rolebinding_name : Except String (Option String) :=
    if o.roles_bind then
      if serviceaccount_name = none then
        .error "To bind roles a service account is required"
      else if role_name = none then
        .error "To bind roles the role must be created"
      else .ok (some (basename o))
    else .ok none
  match rolebinding_name with
  | .error e => .error e
  | .ok rbname =>
    .ok {
      options := o
      names := {
        config := basename o "-config"
        service := basename o
        service_account := serviceaccount_name
        cluster_role := role_name
        cluster_role_binding := rbname
        deployment := basename o
        pod_label_app := basename o }
      configfile := none }

/-- `object_name`: registry lookup by logical name. -/
def Traefik2Builder.object_name (b : Traefik2Builder) : String → Option String
  | "config" => some b.names.config
  | "service" => some b.names.service
  | "service-account" => b.names.service_account
  | "cluster-role" => b.names.cluster_role
  | "cluster-role-binding" => b.names.cluster_role_binding
  | "deployment" => some b.names.deployment
  | "pod-label-app" => some b.names.pod_label_app
  | _ => none

/-- One emitted unit (`ObjectItem`/`Object`): the build-item name, the
source identifier, the instance identifier, and the document payload. -/
structure KObject where
  name : String
  source : String
  instanceId : String
  data : DValue

/-- Whether an emitted object's payload has the given Kubernetes `kind`. -/
def isKind (ob : KObject) (k : String) : Bool :=
  match ob.data.lookupKey "kind" with
  | some (.str s) => s = k
  | _ => false

/-- The ServiceAccount object of `internal_build_accesscontrol`. -/
def serviceAccountObj (b : Traefik2Builder) : KObject :=
  { name := "service-account", source := SOURCE_NAME, instanceId := basename b.options
    data := .map (.cons "apiVersion" (.str "v1")
      (.cons "kind" (.str "ServiceAccount")
      (.cons "metadata" (.map (.cons "name" (optStr (b.object_name "service-account"))
        (.cons "namespace" (.str b.options.ns) .nil))) .nil))) }

/-- The fixed RBAC rule table of the generated ClusterRole. -/
def clusterRoleRules : DValue :=
  .seq (.cons (.map (.cons "apiGroups" (.seq (.cons (.str "") .nil))
      (.cons "resources" (.seq (.cons (.str "services") (.cons (.str "endpoints")
        (.cons (.str "secrets") .nil))))
      (.cons "verbs" (.seq (.cons (.str "get") (.cons (.str "list")
        (.cons (.str "watch") .nil)))) .nil))))
    (.cons (.map (.cons "apiGroups" (.seq (.cons (.str "extensions")
        (.cons (.str "networking.k8s.io") .nil)))
      (.cons "resources" (.seq (.cons (.str "ingresses")
        (.cons (.str "ingressclasses") .nil)))
      (.cons "verbs" (.seq (.cons (.str "get") (.cons (.str "list")
        (.cons (.str "watch") .nil)))) .nil))))
    (.cons (.map (.cons "apiGroups" (.seq (.cons (.str "extensions") .nil))
      (.cons "resources" (.seq (.cons (.str "ingresses/status") .nil))
      (.cons "verbs" (.seq (.cons (.str "update") .nil)) .nil))))
    (.cons (.map (.cons "apiGroups" (.seq (.cons (.str "traefik.containo.us") .nil))
      (.cons "resources" (.seq (.cons (.str "middlewares")
        (.cons (.str "ingressroutes")
        (.cons (.str "traefikservices")
        (.cons (.str "ingressroutetcps")
        (.cons (.str "ingressrouteudps")
        (.cons (.str "tlsoptions")
        (.cons (.str "tlsstores") .nil))))))))
      (.cons "verbs" (.seq (.cons (.str "get") (.cons (.str "list")
        (.cons (.str "watch") .nil)))) .nil))))
    .nil))))

/-- The ClusterRole object of `internal_build_accesscontrol`. -/
def clusterRoleObj (b : Traefik2Builder) : KObject :=
  { name := "cluster-role", source := SOURCE_NAME, instanceId := basename b.options
    data := .map (.cons "apiVersion" (.str "rbac.authorization.k8s.io/v1beta1")
      (.cons "kind" (.str "ClusterRole")
      (.cons "metadata" (.map (.cons "name" (optStr (b.object_name "cluster-role")) .nil))
      (.cons "rules" clusterRoleRules .nil)))) }

/-- The ClusterRoleBinding object of `internal_build_accesscontrol`. -/
def clusterRoleBindingObj (b : Traefik2Builder) : KObject :=
  { name := "cluster-role-binding", source := SOURCE_NAME, instanceId := basename b.options
    data := .map (.cons "apiVersion" (.str "rbac.authorization.k8s.io/v1")
      (.cons "kind" (.str "ClusterRoleBinding")
      (.cons "metadata" (.map (.cons "name"
        (optStr (b.object_name "cluster-role-binding")) .nil))
      (.cons "roleRef" (.map (.cons "apiGroup" (.str "rbac.authorization.k8s.io")
        (.cons "kind" (.str "ClusterRole")
        (.cons "name" (optStr (b.object_name "cluster-role")) .nil))))
      (.cons "subjects" (.seq (.cons (.map (.cons "kind" (.str "ServiceAccount")
        (.cons "name" (optStr (b.object_name "service-account"))
        (.cons "namespace" (.str b.options.ns) .nil)))) .nil)) .nil))))) }

/-- `internal_build_accesscontrol`: the ServiceAccount when
`serviceaccount_create` is enabled, the ClusterRole when `roles_create`
is enabled, the ClusterRoleBinding when `roles_bind` is enabled. -/
def internal_build_accesscontrol (b : Traefik2Builder) : List KObject :=
  (if b.options.serviceaccount_create then [serviceAccountObj b] else []) ++
  (if b.options.roles_create then [clusterRoleObj b] else []) ++
  (if b.options.roles_bind then [clusterRoleBindingObj b] else [])

/-- One of the static CustomResourceDefinition documents of
`_traefik_crd`, parameterized by the plural/singular/kind names. -/
def crdDoc (plural singular kind : String) : DValue :=
  .map (.cons "apiVersion" (.str "apiextensions.k8s.io/v1beta1")
    (.cons "kind" (.str "CustomResourceDefinition")
    (.cons "metadata" (.map (.cons "name" (.str (plural ++ ".traefik.containo.us")) .nil))
    (.cons "spec" (.map (.cons "group" (.str "traefik.containo.us")
      (.cons "version" (.str "v1alpha1")
      (.cons "names" (.map (.cons "kind" (.str kind)
        (.cons "plural" (.str plural)
        (.cons "singular" (.str singular) .nil))))
      (.cons "scope" (.str "Namespaced") .nil))))) .nil))))

/-- `_traefik_crd`: the static multi-document YAML payload, loaded into a
list of documents in source order. -/
def traefik_crd : List DValue :=
  [crdDoc "ingressroutes" "ingressroute" "IngressRoute",
   crdDoc "middlewares" "middleware" "Middleware",
   crdDoc "ingressroutetcps" "ingressroutetcp" "IngressRouteTCP",
   crdDoc "ingressrouteudps" "ingressrouteudp" "IngressRouteUDP",
   crdDoc "tlsoptions" "tlsoption" "TLSOption",
   crdDoc "tlsstores" "tlsstore" "TLSStore",
   crdDoc "traefikservices" "traefikservice" "TraefikService"]

/-- `internal_build_crd`: returns the static CRD documents, independent
of the builder's options. -/
def internal_build_crd (_ : Traefik2Builder) : List DValue :=
  traefik_crd

/-- `configfile_get`: memoized rendering of the configuration text.  A
literal string payload is used verbatim; a template payload is rendered
by the external multi-format renderer (`render`, selected by the
configured format tag), raising `InvalidParamError` on an unknown format.
The result is cached in `configfile` after first computation. -/
def configfile_get (render : String → DValue → String) (b : Traefik2Builder) :
    Except String (Option String × Traefik2Builder) :=
  match b.configfile with
  | some s => .ok (some s, b)
  | none =>
    match b.options.traefik_config with
    | none => .ok (none, b)
    | some (.rawStr s) => .ok (some s, { b with configfile := some s })
    | some (.template v) =>
      if b.options.config_format = CONFIGFORMAT_TOML ∨
          b.options.config_format = CONFIGFORMAT_YAML then
        let txt := render b.options.config_format v
        .ok (some txt, { b with configfile := some txt })
      else
        .error ("Unknown Traefik config format: " ++ b.options.config_format)

/-- The ConfigMap object of `internal_build_config`, with the chosen data
key name and the rendered configuration text. -/
def configMapObj (b : Traefik2Builder) (cfname txt : String) : KObject :=
  { name := "config", source := SOURCE_NAME, instanceId := basename b.options
    data := .map (.cons "apiVersion" (.str "v1")
      (.cons "kind" (.str "ConfigMap")
      (.cons "metadata" (.map (.cons "name" (optStr (b.object_name "config"))
        (.cons "namespace" (.str b.options.ns) .nil)))
      (.cons "data" (.map (.cons cfname (.str txt) .nil)) .nil)))) }

/-- `internal_build_config`: when a configuration payload is supplied,
emits exactly one ConfigMap whose single data key is `prometheus.toml`
for the TOML format and `prometheus.yml` for the YAML format, raising
`InvalidParamError` on any other format; otherwise returns no objects.
The rendered text can never be `None` here since the payload is present,
so the `getD` default is unreachable. -/
def internal_build_config (render : String → DValue → String) (b : Traefik2Builder) :
    Except String (List KObject × Traefik2Builder) :=
  match b.options.traefik_config with
  | none => .ok ([], b)
  | some _ =>
    if b.options.config_format = CONFIGFORMAT_TOML then
      match configfile_get render b with
      | .error e => .error e
      | .ok (txt, b') => .ok ([configMapObj b "prometheus.toml" (txt.getD "")], b')
    else if b.options.config_format = CONFIGFORMAT_YAML then
      match configfile_get render b with
      | .error e => .error e
      | .ok (txt, b') => .ok ([configMapObj b "prometheus.yml" (txt.getD "")], b')
    else
      .error ("Unknown Traefik config format: " ++ b.options.config_format)

/-- `_build_container_ports`: one entry per port descriptor, in input
order, with the port name and container port. -/
def build_container_ports : List Traefik2OptionsPort → List DValue
  | [] => []
  | p :: rest =>
    .map (.cons "name" (.str p.name)
      (.cons "containerPort" (.int p.port_container) .nil)) ::
    build_container_ports rest

/-- `_build_service_ports`: one entry per port descriptor whose
`in_service` flag is set, in input order, with the port name, protocol
and service-facing port. -/
def build_service_ports : List Traefik2OptionsPort → List DValue
  | [] => []
  | p :: rest =>
    if p.in_service then
      .map (.cons "name" (.str p.name)
        (.cons "protocol" (.str p.protocol)
        (.cons "port" (optInt p.port_service) .nil))) ::
      build_service_ports rest
    else
      build_service_ports rest

/-- The conditional prometheus scrape annotations of the pod template
(`ValueData` enabled iff both `enable_prometheus` and
`prometheus_annotation` are not disabled). -/
def podAnnotations (b : Traefik2Builder) : DValue :=
  .cond (b.options.enable_prometheus && b.options.prometheus_annotation)
    (.map (.cons "prometheus.io/scrape" (.str "true")
      (.cons "prometheus.io/path" (.str "/metrics")
      (.cons "prometheus.io/port" (.str (toString b.options.prometheus_port)) .nil))))

/-- The conditional config volume of the pod spec (`ValueData` enabled
iff a configuration payload was supplied). -/
def configVolume (b : Traefik2Builder) : DValue :=
  .cond b.options.traefik_config.isSome
    (.map (.cons "name" (.str "traefik2-config")
      (.cons "configMap" (.map (.cons "name" (optStr (b.object_name "config")) .nil))
        .nil)))

/-- The conditional config volume mount of the traefik container
(`ValueData` enabled iff a configuration payload was supplied). -/
def configVolumeMount (b : Traefik2Builder) : DValue :=
  .cond b.options.traefik_config.isSome
    (.map (.cons "name" (.str "traefik2-config")
      (.cons "mountPath" (.str "/etc/traefik") .nil)))

/-- The single traefik container of the Deployment's pod spec. -/
def containerData (b : Traefik2Builder) : DValue :=
  .map (.cons "name" (.str "traefik")
    (.cons "image" (.str b.options.container_traefik2)
    (.cons "args" (.seq (DList.ofList (b.options.traefik_args.map DValue.str)))
    (.cons "ports" (.seq (DList.ofList (build_container_ports b.options.ports)))
    (.cons "volumeMounts" (.seq (.cons (configVolumeMount b) .nil))
    (.cons "resources" (.cond b.options.resources_deployment.isSome
      (b.options.resources_deployment.getD .nullv)) .nil))))))

/-- The pod spec of the Deployment: conditional serviceAccountName
(`ValueData` with `disabled_if_none`), conditional config volume, and
the single container. -/
def podSpecData (b : Traefik2Builder) : DValue :=
  .map (.cons "serviceAccountName"
      (.cond (b.object_name "service-account").isSome
        (optStr (b.object_name "service-account")))
    (.cons "volumes" (.seq (.cons (configVolume b) .nil))
    (.cons "containers" (.seq (.cons (containerData b) .nil)) .nil)))

/-- The pod template of the Deployment. -/
def podTemplateData (b : Traefik2Builder) : DValue :=
  .map (.cons "metadata"
      (.map (.cons "labels"
          (.map (.cons "app" (optStr (b.object_name "pod-label-app")) .nil))
        (.cons "annotations" (podAnnotations b) .nil)))
    (.cons "spec" (podSpecData b) .nil))

/-- The Deployment payload of `internal_build_service`, with the
conditional prometheus annotations, serviceAccountName, config volume,
config volume mount and container resources as `cond` nodes whose flags
mirror the source's `ValueData` enablement conditions. -/
def deploymentData (b : Traefik2Builder) : DValue :=
  .map (.cons "kind" (.str "Deployment")
    (.cons "apiVersion" (.str "apps/v1")
    (.cons "metadata"
      (.map (.cons "name" (optStr (b.object_name "deployment"))
        (.cons "namespace" (.str b.options.ns)
        (.cons "labels"
          (.map (.cons "app" (optStr (b.object_name "pod-label-app")) .nil)) .nil))))
    (.cons "spec"
      (.map (.cons "selector"
          (.map (.cons "matchLabels"
            (.map (.cons "app" (optStr (b.object_name "pod-label-app")) .nil)) .nil))
        (.cons "template" (podTemplateData b) .nil))) .nil))))

/-- The Service payload of `internal_build_service`. -/
def serviceData (b : Traefik2Builder) : DValue :=
  .map (.cons "apiVersion" (.str "v1")
    (.cons "kind" (.str "Service")
    (.cons "metadata" (.map (.cons "name" (optStr (b.object_name "service"))
      (.cons "namespace" (.str b.options.ns) .nil)))
    (.cons "spec" (.map
      (.cons "selector" (.map (.cons "app" (optStr (b.object_name "pod-label-app")) .nil))
      (.cons "ports" (.seq (DList.ofList (build_service_ports b.options.ports))) .nil))
      ) .nil))))

/-- `internal_build_service`: exactly one Deployment and one Service. -/
def internal_build_service (b : Traefik2Builder) : List KObject :=
  [{ name := "deployment", source := SOURCE_NAME, instanceId := basename b.options
     data := deploymentData b },
   { name := "service", source := SOURCE_NAME, instanceId := basename b.options
     data := serviceData b }]

/-- A builder constructed from an option set, with a dummy fallback for
option sets the constructor rejects (used only for concrete instances
whose construction is separately proved to succeed). -/
def exBuilder (o : Traefik2Options) : Traefik2Builder :=
  match Traefik2Builder.mk? o with
  | .ok b => b
  | .error _ =>
    { options := o
      names := { config := "", service := "", service_account := none,
                 cluster_role := none, cluster_role_binding := none,
                 deployment := "", pod_label_app := "" }
      configfile := none }

/-- Closed form of the constructor: the error cases and the registry the
successful case produces. -/
theorem mk?_eq (o : Traefik2Options) :
    Traefik2Builder.mk? o =
      if o.roles_bind ∧ resolve_serviceaccount_name o = none then
        .error "To bind roles a service account is required"
      else if o.roles_bind ∧ resolve_role_name o = none then
        .error "To bind roles the role must be created"
      else
        .ok { options := o
              names := { config := basename o "-config"
                         service := basename o
                         service_account := resolve_serviceaccount_name o
                         cluster_role := resolve_role_name o
                         cluster_role_binding :=
                           if o.roles_bind then some (basename o) else none
                         deployment := basename o
                         pod_label_app := basename o }
              configfile := none } := by
  unfold Traefik2Builder.mk?
  by_cases hrb : o.roles_bind <;>
    by_cases hsa : resolve_serviceaccount_name o = none <;>
      by_cases hrn : resolve_role_name o = none <;>
        simp [hrb, hsa, hrn]

/-- The state of any successfully constructed builder. -/
theorem mk?_ok_elim (o : Traefik2Options) (b : Traefik2Builder)
    (h : Traefik2Builder.mk? o = .ok b) :
    b = { options := o
          names := { config := basename o "-config"
                     service := basename o
                     service_account := resolve_serviceaccount_name o
                     cluster_role := resolve_role_name o
                     cluster_role_binding :=
                       if o.roles_bind then some (basename o) else none
                     deployment := basename o
                     pod_label_app := basename o }
          configfile := none } := by
  rw [mk?_eq] at h
  split at h
  · simp at h
  · split at h
    · simp at h
    · exact (Except.ok.inj h).symm

/-- Options with role binding disabled, the counterexample input for the
rolebinding-name clause of claim C1. -/
def c1opts : Traefik2Options := { roles_bind := false }

/-- C1 (counterexample): with `roles_bind` disabled (all other options at
their defaults, basename `"traefik2"`) the builder is constructed without
error, yet the rolebinding registry entry is `None`, not the basename —
refuting the claim's clause that outside the error case the rolebinding
name is set to the basename. -/
theorem claim_C1_counterexample :
    (Traefik2Builder.mk? c1opts).isOk = true ∧
    (exBuilder c1opts).names.cluster_role_binding = none ∧
    (exBuilder c1opts).names.cluster_role_binding ≠ some "traefik2" :=
  ⟨rfl, rfl, by decide⟩

/-- C1 (amended): if `roles_bind` is enabled and the resolved
service-account name or the resolved role name is `None`, construction
fails with an `InvalidParamError` before any object is built; otherwise
construction succeeds, and the rolebinding name is set to the basename
when `roles_bind` is enabled and to `None` when it is disabled. -/
theorem claim_C1 (o : Traefik2Options) :
    (o.roles_bind = true ∧
        (resolve_serviceaccount_name o = none ∨ resolve_role_name o = none) →
      ∃ e, Traefik2Builder.mk? o = .error e) ∧
    (¬(o.roles_bind = true ∧
        (resolve_serviceaccount_name o = none ∨ resolve_role_name o = none)) →
      ∃ b, Traefik2Builder.mk? o = .ok b ∧
        b.names.cluster_role_binding =
          (if o.roles_bind then some (basename o) else none)) := by
  rw [mk?_eq]
  constructor
  · rintro ⟨hrb, hmiss⟩
    by_cases hsa : resolve_serviceaccount_name o = none
    · exact ⟨"To bind roles a service account is required", by simp [hrb, hsa]⟩
    · have hrn : resolve_role_name o = none := by tauto
      exact ⟨"To bind roles the role must be created", by simp [hrb, hsa, hrn]⟩
  · intro hn
    by_cases hrb : o.roles_bind
    · have hsa : ¬ resolve_serviceaccount_name o = none :=
        fun hc => hn ⟨hrb, Or.inl hc⟩
      have hrn : ¬ resolve_role_name o = none :=
        fun hc => hn ⟨hrb, Or.inr hc⟩
      rw [if_neg (by tauto), if_neg (by tauto)]
      exact ⟨_, rfl, by simp [hrb]⟩
    · rw [if_neg (by tauto), if_neg (by tauto)]
      exact ⟨_, rfl, by simp [hrb]⟩

/-- C1 (witness): the error side at `serviceaccount_create := false` with
`roles_bind` at its default, and the success side at the default options. -/
theorem claim_C1_witness :
    (∃ e, Traefik2Builder.mk?
      { serviceaccount_create := false : Traefik2Options } = .error e) ∧
    (∃ b, Traefik2Builder.mk? ({} : Traefik2Options) = .ok b ∧
      b.names.cluster_role_binding =
        (if ({} : Traefik2Options).roles_bind
          then some (basename ({} : Traefik2Options)) else none)) :=
  ⟨(claim_C1 { serviceaccount_create := false }).1 (by constructor <;> simp [resolve_serviceaccount_name]),
   (claim_C1 {}).2 (by simp [resolve_serviceaccount_name, resolve_role_name])⟩

/-- C10: with `serviceaccount_create` disabled, an explicitly supplied
empty-string `serviceaccount_use` is treated identically to an absent
one — the resolved service-account name (the would-be registry entry) is
`None` — so with `roles_bind` enabled the constructor raises
`InvalidParamError` even though a service-account value was explicitly
(but empty) supplied. -/
theorem claim_C10 (o : Traefik2Options) (h1 : o.serviceaccount_create = false) :
    resolve_serviceaccount_name { o with serviceaccount_use := some "" } =
      resolve_serviceaccount_name { o with serviceaccount_use := none } ∧
    resolve_serviceaccount_name { o with serviceaccount_use := some "" } = none ∧
    (o.roles_bind = true →
      ∃ e, Traefik2Builder.mk? { o with serviceaccount_use := some "" } = .error e) := by
  have hr : resolve_serviceaccount_name { o with serviceaccount_use := some "" } = none := by
    simp [resolve_serviceaccount_name, h1]
  refine ⟨?_, hr, ?_⟩
  · rw [hr]
    simp [resolve_serviceaccount_name, h1]
  · intro hrb
    refine ⟨"To bind roles a service account is required", ?_⟩
    rw [mk?_eq, if_pos (⟨hrb, hr⟩ :
      ({ o with serviceaccount_use := some "" } : Traefik2Options).roles_bind = true ∧
      resolve_serviceaccount_name { o with serviceaccount_use := some "" } = none)]

/-- C10 (witness): the claim applied at the option set that only disables
`serviceaccount_create` (so `roles_bind` keeps its default `True`). -/
theorem claim_C10_witness :
    resolve_serviceaccount_name
        { serviceaccount_create := false, serviceaccount_use := some "" } = none ∧
    (∃ e, Traefik2Builder.mk?
        { serviceaccount_create := false, serviceaccount_use := some "" } = .error e) :=
  ⟨(claim_C10 { serviceaccount_create := false } rfl).2.1,
   (claim_C10 { serviceaccount_create := false } rfl).2.2 rfl⟩

/-- C9: `configfile_get` is memoized — after a first call returning text
`r` and post-state `b'`, a repeated call on `b'` returns the identical
result and leaves the state unchanged; moreover, when a configuration
payload is present the first call caches exactly the returned text. -/
theorem claim_C9 (render : String → DValue → String) (b b' : Traefik2Builder)
    (r : Option String) (h : configfile_get render b = .ok (r, b')) :
    configfile_get render b' = .ok (r, b') ∧
    (b.options.traefik_config.isSome → b'.configfile = r) := by
  rcases hcf : b.configfile with _ | s
  case some =>
    have he : configfile_get render b = .ok (some s, b) := by
      unfold configfile_get
      rw [hcf]
    rw [he] at h
    obtain ⟨h1, h2⟩ : some s = r ∧ b = b' := by simpa using h
    subst h2
    subst h1
    refine ⟨?_, fun _ => hcf⟩
    unfold configfile_get
    rw [hcf]
  case none =>
    rcases htc : b.options.traefik_config with _ | cv
    case none =>
      have he : configfile_get render b = .ok (none, b) := by
        unfold configfile_get
        simp only [hcf, htc]
      rw [he] at h
      obtain ⟨h1, h2⟩ : (none : Option String) = r ∧ b = b' := by simpa using h
      subst h2
      subst h1
      refine ⟨?_, ?_⟩
      · unfold configfile_get
        simp only [hcf, htc]
      · intro hx
        cases hx
    case some =>
      rcases cv with s | v
      · have he : configfile_get render b =
            .ok (some s, { b with configfile := some s }) := by
          unfold configfile_get
          simp only [hcf, htc]
        rw [he] at h
        obtain ⟨h1, h2⟩ : some s = r ∧ ({ b with configfile := some s } : Traefik2Builder) = b' := by
          simpa using h
        subst h2
        subst h1
        exact ⟨rfl, fun _ => rfl⟩
      · by_cases hf : b.options.config_format = CONFIGFORMAT_TOML ∨
            b.options.config_format = CONFIGFORMAT_YAML
        · have he : configfile_get render b =
              .ok (some (render b.options.config_format v),
                { b with configfile := some (render b.options.config_format v) }) := by
            unfold configfile_get
            simp only [hcf, htc]
            rw [if_pos hf]
          rw [he] at h
          obtain ⟨h1, h2⟩ : some (render b.options.config_format v) = r ∧
              ({ b with configfile := some (render b.options.config_format v) } :
                Traefik2Builder) = b' := by
            simpa using h
          subst h2
          subst h1
          exact ⟨rfl, fun _ => rfl⟩
        · have he : configfile_get render b =
              .error ("Unknown Traefik config format: " ++ b.options.config_format) := by
            unfold configfile_get
            simp only [hcf, htc]
            rw [if_neg hf]
          rw [he] at h
          cases h

/-- Concrete options carrying a literal configuration payload. -/
def c9opts : Traefik2Options := { traefik_config := some (.rawStr "cfg") }

/-- The builder constructed from `c9opts`. -/
def c9b : Traefik2Builder := exBuilder c9opts

/-- The builder state after the first `configfile_get` call on `c9b`. -/
def c9b1 : Traefik2Builder := { c9b with configfile := some "cfg" }

/-- C9 (witness): on a concrete builder with a literal configuration
payload, the second call reproduces the first call's result and state. -/
theorem claim_C9_witness :
    configfile_get (fun _ _ => "") c9b1 = .ok (some "cfg", c9b1) ∧
    (c9b.options.traefik_config.isSome → c9b1.configfile = some "cfg") :=
  claim_C9 (fun _ _ => "") c9b c9b1 (some "cfg") rfl

/-- C4: with a configuration payload supplied, the `config` build emits
exactly one ConfigMap whose single data key is `prometheus.toml` for the
TOML format and `prometheus.yml` for the YAML format, holding the
rendered configuration text; any other format value raises
`InvalidParamError` instead of falling back to a default format. -/
theorem claim_C4 (o : Traefik2Options) (b : Traefik2Builder)
    (render : String → DValue → String) (c : TraefikConfigValue)
    (h : Traefik2Builder.mk? o = .ok b) (hc : o.traefik_config = some c) :
    (o.config_format = CONFIGFORMAT_TOML →
      ∃ txt b', configfile_get render b = .ok (some txt, b') ∧
        internal_build_config render b = .ok ([
          { name := "config", source := SOURCE_NAME, instanceId := basename o
            data := .map (.cons "apiVersion" (.str "v1")
              (.cons "kind" (.str "ConfigMap")
              (.cons "metadata" (.map (.cons "name" (.str (basename o "-config"))
                (.cons "namespace" (.str o.ns) .nil)))
              (.cons "data" (.map (.cons "prometheus.toml" (.str txt) .nil)) .nil)))) }],
          b')) ∧
    (o.config_format = CONFIGFORMAT_YAML →
      ∃ txt b', configfile_get render b = .ok (some txt, b') ∧
        internal_build_config render b = .ok ([
          { name := "config", source := SOURCE_NAME, instanceId := basename o
            data := .map (.cons "apiVersion" (.str "v1")
              (.cons "kind" (.str "ConfigMap")
              (.cons "metadata" (.map (.cons "name" (.str (basename o "-config"))
                (.cons "namespace" (.str o.ns) .nil)))
              (.cons "data" (.map (.cons "prometheus.yml" (.str txt) .nil)) .nil)))) }],
          b')) ∧
    (o.config_format ≠ CONFIGFORMAT_TOML → o.config_format ≠ CONFIGFORMAT_YAML →
      internal_build_config render b =
        .error ("Unknown Traefik config format: " ++ o.config_format)) := by
  have hbo : b.options = o := by rw [mk?_ok_elim o b h]
  have hbc : b.configfile = none := by rw [mk?_ok_elim o b h]
  have hname : b.names.config = basename o "-config" := by rw [mk?_ok_elim o b h]
  refine ⟨?_, ?_, ?_⟩
  · intro hf
    rcases c with s | v
    · have he : configfile_get render b =
          .ok (some s, { b with configfile := some s }) := by
        unfold configfile_get
        simp only [hbc, hbo, hc]
      refine ⟨s, { b with configfile := some s }, he, ?_⟩
      unfold internal_build_config
      simp only [hbo, hc]
      rw [if_pos hf, he]
      simp [configMapObj, Traefik2Builder.object_name, optStr, hbo, hname]
    · have he : configfile_get render b =
          .ok (some (render o.config_format v),
            { b with configfile := some (render o.config_format v) }) := by
        unfold configfile_get
        simp only [hbc, hbo, hc]
        rw [if_pos (Or.inl hf)]
      refine ⟨render o.config_format v,
        { b with configfile := some (render o.config_format v) }, he, ?_⟩
      unfold internal_build_config
      simp only [hbo, hc]
      rw [if_pos hf, he]
      simp [configMapObj, Traefik2Builder.object_name, optStr, hbo, hname]
  · intro hf
    have hne : o.config_format ≠ CONFIGFORMAT_TOML := by
      rw [hf]
      decide
    rcases c with s | v
    · have he : configfile_get render b =
          .ok (some s, { b with configfile := some s }) := by
        unfold configfile_get
        simp only [hbc, hbo, hc]
      refine ⟨s, { b with configfile := some s }, he, ?_⟩
      unfold internal_build_config
      simp only [hbo, hc]
      rw [if_neg hne, if_pos hf, he]
      simp [configMapObj, Traefik2Builder.object_name, optStr, hbo, hname]
    · have he : configfile_get render b =
          .ok (some (render o.config_format v),
            { b with configfile := some (render o.config_format v) }) := by
        unfold configfile_get
        simp only [hbc, hbo, hc]
        rw [if_pos (Or.inr hf)]
      refine ⟨render o.config_format v,
        { b with configfile := some (render o.config_format v) }, he, ?_⟩
      unfold internal_build_config
      simp only [hbo, hc]
      rw [if_neg hne, if_pos hf, he]
      simp [configMapObj, Traefik2Builder.object_name, optStr, hbo, hname]
  · intro hf1 hf2
    unfold internal_build_config
    simp only [hbo, hc]
    rw [if_neg hf1, if_neg hf2]

/-- Concrete options with a literal configuration payload, for the C4
witness. -/
def c4opts : Traefik2Options := { traefik_config := some (.rawStr "cfgtext") }

/-- C4 (witness): the TOML side of the claim at a concrete option set
with a literal payload and the default (TOML) format. -/
theorem claim_C4_witness :
    ∃ txt b', configfile_get (fun _ _ => "") (exBuilder c4opts) = .ok (some txt, b') ∧
      internal_build_config (fun _ _ => "") (exBuilder c4opts) = .ok ([
        { name := "config", source := SOURCE_NAME, instanceId := basename c4opts
          data := .map (.cons "apiVersion" (.str "v1")
            (.cons "kind" (.str "ConfigMap")
            (.cons "metadata" (.map (.cons "name" (.str (basename c4opts "-config"))
              (.cons "namespace" (.str c4opts.ns) .nil)))
            (.cons "data" (.map (.cons "prometheus.toml" (.str txt) .nil)) .nil)))) }],
        b') :=
  (claim_C4 c4opts (exBuilder c4opts) (fun _ _ => "") (.rawStr "cfgtext") rfl rfl).1 rfl

/-- Every object emitted by `internal_build_accesscontrol` is the
ServiceAccount, the ClusterRole or the ClusterRoleBinding. -/
theorem accesscontrol_mem (b : Traefik2Builder) (ob : KObject)
    (hob : ob ∈ internal_build_accesscontrol b) :
    ob = serviceAccountObj b ∨ ob = clusterRoleObj b ∨ ob = clusterRoleBindingObj b := by
  unfold internal_build_accesscontrol at hob
  rcases List.mem_append.1 hob with hx | hx
  · rcases List.mem_append.1 hx with hy | hy
    · left
      split at hy
      · exact List.mem_singleton.1 hy
      · cases hy
    · right
      left
      split at hy
      · exact List.mem_singleton.1 hy
      · cases hy
  · right
    right
    split at hx
    · exact List.mem_singleton.1 hx
    · cases hx

/-- Options selecting an existing service account instead of creating
one, the counterexample input for claim C2. -/
def c2opts : Traefik2Options :=
  { serviceaccount_create := false, serviceaccount_use := some "mysa" }

/-- C2 (counterexample): with `serviceaccount_create` disabled and
`serviceaccount_use := "mysa"` the builder is constructed successfully
and the registry entry `service-account` is non-`None` (`"mysa"`), yet
`accesscontrol` emits no ServiceAccount object — refuting the claimed
equivalence between the registry entry being non-`None` and a
ServiceAccount being emitted. -/
theorem claim_C2_counterexample :
    (Traefik2Builder.mk? c2opts).isOk = true ∧
    (exBuilder c2opts).names.service_account = some "mysa" ∧
    (internal_build_accesscontrol (exBuilder c2opts)).countP
      (fun ob => isKind ob "ServiceAccount") = 0 :=
  ⟨rfl, rfl, rfl⟩

/-- C2 (amended): for every successfully constructed builder,
`accesscontrol` emits a ServiceAccount iff `serviceaccount_create` is
enabled (not iff the registry entry is non-`None`: an existing account
name yields a non-`None` entry without an emitted object), a ClusterRole
iff the registry entry `cluster-role` is non-`None`, and a
ClusterRoleBinding iff the registry entry `cluster-role-binding` is
non-`None`; the ClusterRoleBinding's `roleRef.name` and
`subjects[0].name` are taken from the registry entries `cluster-role`
and `service-account`. -/
theorem claim_C2 (o : Traefik2Options) (b : Traefik2Builder)
    (h : Traefik2Builder.mk? o = .ok b) :
    ((internal_build_accesscontrol b).countP (fun ob => isKind ob "ServiceAccount") =
      if o.serviceaccount_create then 1 else 0) ∧
    ((internal_build_accesscontrol b).countP (fun ob => isKind ob "ClusterRole") =
      if b.names.cluster_role ≠ none then 1 else 0) ∧
    ((internal_build_accesscontrol b).countP (fun ob => isKind ob "ClusterRoleBinding") =
      if b.names.cluster_role_binding ≠ none then 1 else 0) ∧
    (∀ ob ∈ internal_build_accesscontrol b, isKind ob "ClusterRoleBinding" = true →
      ob.data.lookupKey "roleRef" =
        some (.map (.cons "apiGroup" (.str "rbac.authorization.k8s.io")
          (.cons "kind" (.str "ClusterRole")
          (.cons "name" (optStr b.names.cluster_role) .nil)))) ∧
      ob.data.lookupKey "subjects" =
        some (.seq (.cons (.map (.cons "kind" (.str "ServiceAccount")
          (.cons "name" (optStr b.names.service_account)
          (.cons "namespace" (.str b.options.ns) .nil)))) .nil))) := by
  have hb := mk?_ok_elim o b h
  subst hb
  refine ⟨?_, ?_, ?_, ?_⟩
  · by_cases h1 : o.serviceaccount_create <;>
      by_cases h2 : o.roles_create <;>
        by_cases h3 : o.roles_bind <;>
          simp [internal_build_accesscontrol, h1, h2, h3, List.countP_append,
            List.countP_cons,
            show ∀ b, isKind (serviceAccountObj b) "ServiceAccount" = true from fun _ => rfl,
            show ∀ b, isKind (clusterRoleObj b) "ServiceAccount" = false from fun _ => rfl,
            show ∀ b, isKind (clusterRoleBindingObj b) "ServiceAccount" = false from fun _ => rfl]
  · by_cases h1 : o.serviceaccount_create <;>
      by_cases h2 : o.roles_create <;>
        by_cases h3 : o.roles_bind <;>
          simp [internal_build_accesscontrol, h1, h2, h3, List.countP_append,
            List.countP_cons, resolve_role_name,
            show ∀ b, isKind (serviceAccountObj b) "ClusterRole" = false from fun _ => rfl,
            show ∀ b, isKind (clusterRoleObj b) "ClusterRole" = true from fun _ => rfl,
            show ∀ b, isKind (clusterRoleBindingObj b) "ClusterRole" = false from fun _ => rfl]
  · by_cases h1 : o.serviceaccount_create <;>
      by_cases h2 : o.roles_create <;>
        by_cases h3 : o.roles_bind <;>
          simp [internal_build_accesscontrol, h1, h2, h3, List.countP_append,
            List.countP_cons,
            show ∀ b, isKind (serviceAccountObj b) "ClusterRoleBinding" = false from fun _ => rfl,
            show ∀ b, isKind (clusterRoleObj b) "ClusterRoleBinding" = false from fun _ => rfl,
            show ∀ b, isKind (clusterRoleBindingObj b) "ClusterRoleBinding" = true from fun _ => rfl]
  · intro ob hob hk
    rcases accesscontrol_mem _ ob hob with rfl | rfl | rfl
    · exact absurd hk (by simp [show ∀ b,
        isKind (serviceAccountObj b) "ClusterRoleBinding" = false from fun _ => rfl])
    · exact absurd hk (by simp [show ∀ b,
        isKind (clusterRoleObj b) "ClusterRoleBinding" = false from fun _ => rfl])
    · exact ⟨rfl, rfl⟩

/-- C2 (witness): the amended claim applied at the default options, where
all three objects are emitted. -/
theorem claim_C2_witness :
    ((internal_build_accesscontrol (exBuilder {})).countP
      (fun ob => isKind ob "ServiceAccount") =
        if ({} : Traefik2Options).serviceaccount_create then 1 else 0) ∧
    ((internal_build_accesscontrol (exBuilder {})).countP
      (fun ob => isKind ob "ClusterRole") =
        if (exBuilder {}).names.cluster_role ≠ none then 1 else 0) ∧
    ((internal_build_accesscontrol (exBuilder {})).countP
      (fun ob => isKind ob "ClusterRoleBinding") =
        if (exBuilder {}).names.cluster_role_binding ≠ none then 1 else 0) ∧
    (∀ ob ∈ internal_build_accesscontrol (exBuilder {}),
      isKind ob "ClusterRoleBinding" = true →
      ob.data.lookupKey "roleRef" =
        some (.map (.cons "apiGroup" (.str "rbac.authorization.k8s.io")
          (.cons "kind" (.str "ClusterRole")
          (.cons "name" (optStr (exBuilder {}).names.cluster_role) .nil)))) ∧
      ob.data.lookupKey "subjects" =
        some (.seq (.cons (.map (.cons "kind" (.str "ServiceAccount")
          (.cons "name" (optStr (exBuilder {}).names.service_account)
          (.cons "namespace" (.str (exBuilder {}).options.ns) .nil)))) .nil))) :=
  claim_C2 {} (exBuilder {}) rfl

/-- The `spec.names.kind` entry of a CRD document. -/
def crdKind (d : DValue) : Option DValue :=
  (d.lookupKey "spec").bind (fun s => (s.lookupKey "names").bind (·.lookupKey "kind"))

/-- C3 (counterexample): the `crd` build group returns seven documents,
not six — the seventh is the `TraefikService` CustomResourceDefinition,
which the claim's list of kinds omits. -/
theorem claim_C3_counterexample :
    (internal_build_crd (exBuilder {})).length = 7 ∧
    (internal_build_crd (exBuilder {})).length ≠ 6 ∧
    ((internal_build_crd (exBuilder {})).get? 6).map crdKind =
      some (some (.str "TraefikService")) :=
  ⟨rfl, by decide, rfl⟩

/-- C3 (amended): `build('crd')` returns exactly seven
CustomResourceDefinition documents, for the kinds IngressRoute,
Middleware, IngressRouteTCP, IngressRouteUDP, TLSOption, TLSStore and
TraefikService, each with apiVersion `apiextensions.k8s.io/v1beta1`,
group `traefik.containo.us`, version `v1alpha1` and Namespaced scope,
independent of the option set. -/
theorem claim_C3 (b : Traefik2Builder) :
    internal_build_crd b = traefik_crd ∧
    (internal_build_crd b).length = 7 ∧
    (internal_build_crd b).map crdKind =
      [some (.str "IngressRoute"), some (.str "Middleware"),
       some (.str "IngressRouteTCP"), some (.str "IngressRouteUDP"),
       some (.str "TLSOption"), some (.str "TLSStore"),
       some (.str "TraefikService")] ∧
    (internal_build_crd b).map (fun d => d.lookupKey "kind") =
      List.replicate 7 (some (.str "CustomResourceDefinition")) ∧
    (internal_build_crd b).map (fun d => d.lookupKey "apiVersion") =
      List.replicate 7 (some (.str "apiextensions.k8s.io/v1beta1")) ∧
    (internal_build_crd b).map (fun d => (d.lookupKey "spec").bind (·.lookupKey "group")) =
      List.replicate 7 (some (.str "traefik.containo.us")) ∧
    (internal_build_crd b).map (fun d => (d.lookupKey "spec").bind (·.lookupKey "version")) =
      List.replicate 7 (some (.str "v1alpha1")) ∧
    (internal_build_crd b).map (fun d => (d.lookupKey "spec").bind (·.lookupKey "scope")) =
      List.replicate 7 (some (.str "Namespaced")) :=
  ⟨rfl, rfl, rfl, rfl, rfl, rfl, rfl, rfl⟩

/-- C6: the derived container port list has exactly one entry per
descriptor (name and container port) in input order, and the derived
Service port list has one entry per descriptor whose `in_service` flag
is true (name, protocol and service-facing port), also in input order;
for ports `[A, B, C]` with only `A` and `C` service-exposed the
container list is `[A, B, C]` and the service list is `[A, C]`. -/
theorem claim_C6 (ports : List Traefik2OptionsPort) :
    build_container_ports ports = ports.map (fun p =>
      .map (.cons "name" (.str p.name)
        (.cons "containerPort" (.int p.port_container) .nil))) ∧
    build_service_ports ports = (ports.filter (fun p => p.in_service)).map (fun p =>
      .map (.cons "name" (.str p.name)
        (.cons "protocol" (.str p.protocol)
        (.cons "port" (optInt p.port_service) .nil)))) ∧
    (build_container_ports
        [{ name := "A", port_container := 1, port_service := some 10 },
         { name := "B", port_container := 2, in_service := false },
         { name := "C", port_container := 3, port_service := some 30 }]).map
      (fun d => d.lookupKey "name") =
        [some (.str "A"), some (.str "B"), some (.str "C")] ∧
    (build_service_ports
        [{ name := "A", port_container := 1, port_service := some 10 },
         { name := "B", port_container := 2, in_service := false },
         { name := "C", port_container := 3, port_service := some 30 }]).map
      (fun d => d.lookupKey "name") =
        [some (.str "A"), some (.str "C")] := by
  refine ⟨?_, ?_, rfl, rfl⟩
  · induction ports with
    | nil => rfl
    | cons p rest ih => simp [build_container_ports, ih]
  · induction ports with
    | nil => rfl
    | cons p rest ih =>
      by_cases hp : p.in_service <;> simp [build_service_ports, hp, ih]

/-- C7: without an explicit name override, `object_name('service')` and
`object_name('deployment')` both equal the basename, and the `service`
build group's Service object carries the basename as `metadata.name` and
the resolved namespace as `metadata.namespace`. -/
theorem claim_C7 (o : Traefik2Options) (b : Traefik2Builder)
    (h : Traefik2Builder.mk? o = .ok b) :
    b.object_name "service" = some (basename o) ∧
    b.object_name "deployment" = some (basename o) ∧
    ∃ svc, (internal_build_service b).get? 1 = some svc ∧
      isKind svc "Service" = true ∧
      svc.data.lookupKey "metadata" =
        some (.map (.cons "name" (.str (basename o))
          (.cons "namespace" (.str o.ns) .nil))) := by
  have hb := mk?_ok_elim o b h
  subst hb
  exact ⟨rfl, rfl, _, rfl, rfl, rfl⟩

/-- C7 (witness): basename `"mytraefik2"` and namespace `"myns"` give a
Service named `mytraefik2` in namespace `myns`. -/
theorem claim_C7_witness :
    (exBuilder { basename := "mytraefik2", ns := "myns" }).object_name "service" =
      some "mytraefik2" ∧
    (exBuilder { basename := "mytraefik2", ns := "myns" }).object_name "deployment" =
      some "mytraefik2" ∧
    ∃ svc, (internal_build_service
        (exBuilder { basename := "mytraefik2", ns := "myns" })).get? 1 = some svc ∧
      isKind svc "Service" = true ∧
      svc.data.lookupKey "metadata" =
        some (.map (.cons "name" (.str "mytraefik2")
          (.cons "namespace" (.str "myns") .nil))) :=
  claim_C7 { basename := "mytraefik2", ns := "myns" }
    (exBuilder { basename := "mytraefik2", ns := "myns" }) rfl

/-- C8: whenever `accesscontrol` emits a ClusterRole, its rules are
exactly, in order: apiGroups `[""]` with resources services, endpoints,
secrets and verbs get, list, watch; apiGroups extensions,
networking.k8s.io with resources ingresses, ingressclasses and verbs
get, list, watch; apiGroup extensions with resource ingresses/status and
verb update; apiGroup traefik.containo.us with resources middlewares,
ingressroutes, traefikservices, ingressroutetcps, ingressrouteudps,
tlsoptions, tlsstores and verbs get, list, watch. -/
theorem claim_C8 (b : Traefik2Builder) (ob : KObject)
    (hob : ob ∈ internal_build_accesscontrol b)
    (hk : isKind ob "ClusterRole" = true) :
    ob.data.lookupKey "rules" = some (.seq
      (.cons (.map (.cons "apiGroups" (.seq (.cons (.str "") .nil))
          (.cons "resources" (.seq (.cons (.str "services") (.cons (.str "endpoints")
            (.cons (.str "secrets") .nil))))
          (.cons "verbs" (.seq (.cons (.str "get") (.cons (.str "list")
            (.cons (.str "watch") .nil)))) .nil))))
        (.cons (.map (.cons "apiGroups" (.seq (.cons (.str "extensions")
            (.cons (.str "networking.k8s.io") .nil)))
          (.cons "resources" (.seq (.cons (.str "ingresses")
            (.cons (.str "ingressclasses") .nil)))
          (.cons "verbs" (.seq (.cons (.str "get") (.cons (.str "list")
            (.cons (.str "watch") .nil)))) .nil))))
        (.cons (.map (.cons "apiGroups" (.seq (.cons (.str "extensions") .nil))
          (.cons "resources" (.seq (.cons (.str "ingresses/status") .nil))
          (.cons "verbs" (.seq (.cons (.str "update") .nil)) .nil))))
        (.cons (.map (.cons "apiGroups" (.seq (.cons (.str "traefik.containo.us") .nil))
          (.cons "resources" (.seq (.cons (.str "middlewares")
            (.cons (.str "ingressroutes")
            (.cons (.str "traefikservices")
            (.cons (.str "ingressroutetcps")
            (.cons (.str "ingressrouteudps")
            (.cons (.str "tlsoptions")
            (.cons (.str "tlsstores") .nil))))))))
          (.cons "verbs" (.seq (.cons (.str "get") (.cons (.str "list")
            (.cons (.str "watch") .nil)))) .nil))))
        .nil))))) := by
  rcases accesscontrol_mem b ob hob with rfl | rfl | rfl
  · exact absurd hk (by simp [show ∀ b,
      isKind (serviceAccountObj b) "ClusterRole" = false from fun _ => rfl])
  · rfl
  · exact absurd hk (by simp [show ∀ b,
      isKind (clusterRoleBindingObj b) "ClusterRole" = false from fun _ => rfl])

/-- C8 (witness): the ClusterRole emitted at the default options carries
exactly the fixed rule table. -/
theorem claim_C8_witness :
    (clusterRoleObj (exBuilder {})).data.lookupKey "rules" = some clusterRoleRules :=
  claim_C8 (exBuilder {}) (clusterRoleObj (exBuilder {}))
    (List.Mem.tail _ (List.Mem.head _)) rfl

/-- C5: without a configuration payload, the `config` build group yields
an empty sequence, and after erasure of disabled conditional values the
Deployment's pod spec contains no config volume and its container no
config volume mount (the volume and mount lists prune to empty, rather
than holding null entries). -/
theorem claim_C5 (o : Traefik2Options) (b : Traefik2Builder)
    (render : String → DValue → String)
    (h : Traefik2Builder.mk? o = .ok b) (hc : o.traefik_config = none) :
    internal_build_config render b = .ok ([], b) ∧
    ((DValue.prune (deploymentData b)).bind (fun d => d.lookupKey "spec")
      |>.bind (fun d => d.lookupKey "template")
      |>.bind (fun d => d.lookupKey "spec")
      |>.bind (fun d => d.lookupKey "volumes")) = some (.seq .nil) ∧
    ((DValue.prune (deploymentData b)).bind (fun d => d.lookupKey "spec")
      |>.bind (fun d => d.lookupKey "template")
      |>.bind (fun d => d.lookupKey "spec")
      |>.bind (fun d => d.lookupKey "containers")
      |>.bind (fun d => d.atIdx 0)
      |>.bind (fun d => d.lookupKey "volumeMounts")) = some (.seq .nil) := by
  have hb := mk?_ok_elim o b h
  subst hb
  refine ⟨?_, ?_, ?_⟩
  · unfold internal_build_config
    simp only [hc]
  · rcases hpa : (o.enable_prometheus && o.prometheus_annotation) with _ | _ <;>
      rcases hsa : resolve_serviceaccount_name o with _ | sa <;>
        rcases hrd : o.resources_deployment with _ | rd <;>
          simp [deploymentData, podTemplateData, podSpecData, containerData,
            podAnnotations, configVolume, configVolumeMount,
            Traefik2Builder.object_name, DValue.prune, DMap.prune, DList.prune,
            DValue.lookupKey, DMap.lookupKey, hpa, hsa, hrd, hc, optStr]
  · rcases hpa : (o.enable_prometheus && o.prometheus_annotation) with _ | _ <;>
      rcases hsa : resolve_serviceaccount_name o with _ | sa <;>
        rcases hrd : o.resources_deployment with _ | rd <;>
          simp [deploymentData, podTemplateData, podSpecData, containerData,
            podAnnotations, configVolume, configVolumeMount,
            Traefik2Builder.object_name, DValue.prune, DMap.prune, DList.prune,
            DValue.lookupKey, DMap.lookupKey, DValue.atIdx, DValue.atIdx.go,
            hpa, hsa, hrd, hc, optStr]

/-- C5 (witness): the claim at the default options, whose configuration
payload is absent. -/
theorem claim_C5_witness :
    internal_build_config (fun _ _ => "") (exBuilder {}) = .ok ([], exBuilder {}) ∧
    ((DValue.prune (deploymentData (exBuilder {}))).bind (fun d => d.lookupKey "spec")
      |>.bind (fun d => d.lookupKey "template")
      |>.bind (fun d => d.lookupKey "spec")
      |>.bind (fun d => d.lookupKey "volumes")) = some (.seq .nil) ∧
    ((DValue.prune (deploymentData (exBuilder {}))).bind (fun d => d.lookupKey "spec")
      |>.bind (fun d => d.lookupKey "template")
      |>.bind (fun d => d.lookupKey "spec")
      |>.bind (fun d => d.lookupKey "containers")
      |>.bind (fun d => d.atIdx 0)
      |>.bind (fun d => d.lookupKey "volumeMounts")) = some (.seq .nil) :=
  claim_C5 {} (exBuilder {}) (fun _ _ => "") rfl rfl
